import Mathlib

/-!
Shallow embedding of the Portia PR Guardian application (`app.py`, `tools.py`):
the GitHub PR URL parser, the two GitHub gateway tool functions, and the
chat-driven review-session state machine, together with theorems settling
the specification claims.

External effects are modelled by explicit oracles: the agent executor
(`portia.run`) is a function from the task string to an `ExecResult`, and
the GitHub/network layer inside each gateway tool is a `NetResult` value
describing whether the calls inside the `try` block succeed or raise.
-/

namespace PRGuardian

/-- The ASCII whitespace characters that Python's `int(...)` conversion strips
from both ends of its string argument (`' '`, `'\t'`, `'\n'`, `'\r'`,
vertical tab, form feed). -/
def isPySpace (c : Char) : Bool :=
  c = ' ' || c = '\t' || c = '\n' || c = '\r' || c = Char.ofNat 11 || c = Char.ofNat 12

/-- Python `str.strip(chars)`: drop characters satisfying `p` from both ends. -/
def pyStrip (p : Char → Bool) (s : String) : String :=
  String.mk (((s.data.dropWhile p).reverse.dropWhile p).reverse)

/-- Python `str.split(sep)` for a one-character separator, on character lists:
`"" ↦ [""]`, and adjacent separators produce empty segments. -/
def splitChar (sep : Char) : List Char → List (List Char)
  | [] => [[]]
  | c :: rest =>
    if c = sep then [] :: splitChar sep rest
    else
      match splitChar sep rest with
      | h :: t => (c :: h) :: t
      | [] => [[c]]

/-- After the first digit, a Python decimal literal body is digits with single
underscores allowed between digits (`1_0` is valid, `1__0` and `1_` are not). -/
def digitTailOk : List Char → Bool
  | [] => true
  | '_' :: c :: rest => c.isDigit && digitTailOk rest
  | c :: rest => c.isDigit && digitTailOk rest

/-- A valid Python base-10 digit part: nonempty, starts with a digit, and its
tail satisfies `digitTailOk`. -/
def digitpartOk : List Char → Bool
  | [] => false
  | c :: rest => c.isDigit && digitTailOk rest

/-- Numeric value of a digit part, ignoring underscores. -/
def digitsVal (l : List Char) : Nat :=
  (l.filter Char.isDigit).foldl (fun a c => 10 * a + (c.toNat - 48)) 0

/-- Python `int(s)` on a string: strip whitespace, allow one optional sign,
then require a valid digit part; `none` models the `ValueError` path. -/
def pythonInt (s : String) : Option Int :=
  match (pyStrip isPySpace s).data with
  | '+' :: rest => if digitpartOk rest then some (Int.ofNat (digitsVal rest)) else none
  | '-' :: rest => if digitpartOk rest then some (-(Int.ofNat (digitsVal rest))) else none
  | rest => if digitpartOk rest then some (Int.ofNat (digitsVal rest)) else none

/-- `url.strip('/').split('/')` from `parse_pr_url`, as a list of segments. -/
def urlParts (url : String) : List String :=
  (splitChar '/' (pyStrip (fun c => c = '/') url).data).map String.mk

/-- `parse_pr_url` (identical in `app.py` and `tools.py`): strip slashes,
split on `'/'`, take `parts[-4]`/`parts[-3]` as `"owner/repo"` and
`int(parts[-1])` as the PR number; `IndexError` (fewer than four segments)
and `ValueError` (non-integer last segment) both raise
`ValueError(f"Invalid GitHub PR URL format: {url}")`, modelled as `.error`. -/
def parse_pr_url (url : String) : Except String (String × Int) :=
  match (urlParts url).reverse with
  | num :: _ :: name :: owner :: _ =>
    match pythonInt num with
    | some n => Except.ok (owner ++ "/" ++ name, n)
    | none => Except.error ("Invalid GitHub PR URL format: " ++ url)
  | _ => Except.error ("Invalid GitHub PR URL format: " ++ url)

/-- Outcome of the GitHub/HTTP calls inside a gateway tool's `try` block:
either every call succeeds producing `a`, or some call raises an exception
whose rendered message is `msg`. -/
inductive NetResult (α : Type)
  | ok (a : α)
  | raised (msg : String)
deriving DecidableEq

/-- Python truthiness of `os.getenv("GITHUB_TOKEN")`: falsy when unset
(`none`) or set to the empty string. -/
def tokenSet : Option String → Bool
  | none => false
  | some t => t ≠ ""

/-- `get_pr_details_and_diff` from `app.py`: return an error string when the
token is falsy, otherwise run the GitHub fetch (`fetch` gives the title, body
and diff text, or the rendered exception) and format the result; every branch
returns a plain string. -/
def get_pr_details_and_diff (tok : Option String)
    (fetch : NetResult (String × String × String)) : String :=
  if tokenSet tok = false then
    "Error: GITHUB_TOKEN has not been set. Please provide it in the sidebar."
  else
    match fetch with
    | NetResult.ok (title, body, diff) =>
        "Title: " ++ title ++ "\nBody: " ++ body ++ "\n\nCode Diff:\n" ++ diff
    | NetResult.raised e => "Error fetching PR details: " ++ e

/-- `post_comment_to_pr` from `app.py`: same token gate, then the GitHub
comment-creation call (`post`), returning a success or error string. -/
def post_comment_to_pr (tok : Option String) (post : NetResult Unit) : String :=
  if tokenSet tok = false then
    "Error: GITHUB_TOKEN has not been set. Please provide it in the sidebar."
  else
    match post with
    | NetResult.ok _ => "Comment posted successfully."
    | NetResult.raised e => "Error posting comment: " ++ e

namespace ToolsPy

/-- `get_pr_details_and_diff` from `tools.py`: identical to the `app.py`
version except for the wording of the missing-token message. -/
def get_pr_details_and_diff (tok : Option String)
    (fetch : NetResult (String × String × String)) : String :=
  if tokenSet tok = false then
    "Error: GITHUB_TOKEN environment variable not set. Please provide it in the sidebar."
  else
    match fetch with
    | NetResult.ok (title, body, diff) =>
        "Title: " ++ title ++ "\nBody: " ++ body ++ "\n\nCode Diff:\n" ++ diff
    | NetResult.raised e => "Error fetching PR details: " ++ e

/-- `post_comment_to_pr` from `tools.py`. -/
def post_comment_to_pr (tok : Option String) (post : NetResult Unit) : String :=
  if tokenSet tok = false then
    "Error: GITHUB_TOKEN environment variable not set. Please provide it in the sidebar."
  else
    match post with
    | NetResult.ok _ => "Comment posted successfully."
    | NetResult.raised e => "Error posting comment: " ++ e

end ToolsPy

/-- One chat transcript entry, mirroring the message dictionaries stored in
`st.session_state.messages` (user entries carry no avatar, assistant entries
carry the shield avatar). -/
structure Message where
  role : String
  avatar : Option String
  content : String
deriving DecidableEq

/-- `{"role": "user", "content": c}`. -/
def mkUserMsg (c : String) : Message := ⟨"user", none, c⟩

/-- `{"role": "assistant", "avatar": "🛡️", "content": c}`. -/
def mkBotMsg (c : String) : Message := ⟨"assistant", some "🛡️", c⟩

/-- The mutable per-user session state the app reads and writes
(`st.session_state`): each optional field models a key that may be absent. -/
structure Session where
  stage : Option String
  messages : List Message
  pr_url : Option String
  draft_comment : Option String
deriving DecidableEq

/-- The session before any interaction: no stage, no URL, no draft, and the
empty message list installed by the `"messages" not in st.session_state`
initialisation. -/
def initSession : Session := ⟨none, [], none, none⟩

/-- Result of one `portia.run(task)` call, as observed by the app:
`noRun` models a falsy `plan_run`; `run st outs` a run object whose state
has value string `st`, where `outs = none` models falsy `plan_run.outputs`
and `outs = some v` models truthy outputs whose extracted
`final_output.value` is `v` (`none` when the key is absent or null);
`raised msg` models an exception escaping `portia.run`. -/
inductive ExecResult
  | noRun
  | run (state : String) (outs : Option (Option String))
  | raised (msg : String)
deriving DecidableEq

/-- Append an assistant message. -/
def appendBot (s : Session) (c : String) : Session :=
  { s with messages := s.messages ++ [mkBotMsg c] }

/-- Append an assistant message and fall back to the `"initial"` stage — the
pattern of every failure branch in `run_analysis`. -/
def failBack (s : Session) (c : String) : Session :=
  { s with messages := s.messages ++ [mkBotMsg c], stage := some "initial" }

/-- The analysis task f-string built in `run_analysis`. -/
def analysisTask (repo_name : String) (pr_number : Int) : String :=
  "Your first job is to analyze PR #" ++ toString pr_number ++ " in \x27" ++ repo_name ++
    "\x27. Use `get_pr_details_and_diff`, analyze for issues, and synthesize a review comment. Your final output must be ONLY the markdown text of the draft comment."

/-- The posting task f-string of `post_comment` up to (and excluding) the
draft comment, which the code appends after `":\n\n"`. -/
def postingTaskStem (repo_name : String) (pr_number : Int) : String :=
  "Use `post_comment_to_pr` to post this comment to PR #" ++ toString pr_number ++
    " in repo \x27" ++ repo_name ++ "\x27:\n\n"

/-- `run_analysis(pr_url)` from `app.py`, with the executor as an oracle
`ex` from task strings to run results. Returns the updated session together
with the list of executor invocations performed (each gateway tool call
happens only inside such an invocation). Branches mirror the source: append
the user message, parse the URL, run the analysis task, and on
success-with-truthy-draft store the draft and enter `"awaiting_approval"`;
every failure branch appends an assistant message and sets the stage back to
`"initial"`. -/
def run_analysis (ex : String → ExecResult) (pr_url : String) (s : Session) :
    Session × List String :=
  let s := { s with messages := s.messages ++ [mkUserMsg ("Please review this PR: " ++ pr_url)] }
  match parse_pr_url pr_url with
  | Except.error e => (failBack s ("An error occurred: " ++ e), [])
  | Except.ok (repo_name, pr_number) =>
    let task := analysisTask repo_name pr_number
    match ex task with
    | ExecResult.raised e => (failBack s ("An error occurred: " ++ e), [task])
    | ExecResult.noRun => (failBack s "Agent run failed. State: N/A", [task])
    | ExecResult.run st outs =>
      match outs with
      | some draftv =>
        if st = "COMPLETE" then
          match draftv with
          | some d =>
            if d = "" then (failBack s "Agent failed to produce a draft.", [task])
            else ({ s with draft_comment := some d, stage := some "awaiting_approval" }, [task])
          | none => (failBack s "Agent failed to produce a draft.", [task])
        else (failBack s ("Agent run failed. State: " ++ st), [task])
      | none => (failBack s ("Agent run failed. State: " ++ st), [task])

/-- Rendering of the `AttributeError` Streamlit raises when a session-state
key read with attribute access is absent; inside `post_comment` such an
exception is caught and wrapped like any other. -/
def missingAttr (key : String) : String :=
  "st.session_state has no attribute \x22" ++ key ++ "\x22. Did you forget to initialize it?"

/-- `post_comment()` from `app.py`: append the user's approval message, set
the stage to `"posting"`, then inside `try` parse the stored `pr_url`, build
the posting task embedding the stored `draft_comment`, and run it; a
COMPLETE run appends the success message, any other run object or a falsy
one appends the failure message, and an exception appends the wrapped error;
in every case the stage is finally set to `"done"`. -/
def post_comment (ex : String → ExecResult) (s : Session) : Session × List String :=
  let s := { s with messages := s.messages ++ [mkUserMsg "Yes, approve and post."],
                    stage := some "posting" }
  let r :=
    match s.pr_url with
    | none => (appendBot s ("An error occurred while posting: " ++ missingAttr "pr_url"), ([] : List String))
    | some url =>
      match parse_pr_url url with
      | Except.error e => (appendBot s ("An error occurred while posting: " ++ e), [])
      | Except.ok (repo_name, pr_number) =>
        match s.draft_comment with
        | none => (appendBot s ("An error occurred while posting: " ++ missingAttr "draft_comment"), [])
        | some draft =>
          let task := postingTaskStem repo_name pr_number ++ draft
          match ex task with
          | ExecResult.raised e =>
              (appendBot s ("An error occurred while posting: " ++ e), [task])
          | ExecResult.noRun => (appendBot s "❌ Failed to post the comment.", [task])
          | ExecResult.run st _ =>
              if st = "COMPLETE" then (appendBot s "✅ **Success!** Comment posted.", [task])
              else (appendBot s "❌ Failed to post the comment.", [task])
  ({ r.1 with stage := some "done" }, r.2)

/-- The `chat_input` submit handler: only a truthy (nonempty) prompt fires;
it sets the stage to `"analyzing"`, stores the URL, clears the transcript,
and calls `run_analysis`. -/
def chat_submit (ex : String → ExecResult) (prompt : String) (s : Session) :
    Session × List String :=
  if prompt = "" then (s, [])
  else run_analysis ex prompt
    { s with stage := some "analyzing", pr_url := some prompt, messages := [] }

/-- The "Approve & Post" button handler: rendered (and clickable) only in
the `"awaiting_approval"` stage, where it calls `post_comment`. -/
def approve_click (ex : String → ExecResult) (s : Session) : Session × List String :=
  if s.stage = some "awaiting_approval" then post_comment ex s else (s, [])

/-- The "Reject & Cancel" button handler: rendered only in
`"awaiting_approval"`; appends the user's rejection and the cancellation
notice and sets the stage to `"done"`, with no executor invocation. -/
def reject_click (s : Session) : Session × List String :=
  if s.stage = some "awaiting_approval" then
    ({ s with
        messages := s.messages ++
          [mkUserMsg "No, reject.", mkBotMsg "👍 Understood. Operation cancelled."],
        stage := some "done" }, [])
  else (s, [])

/-- The three entry points the presentation shell can trigger. -/
inductive Op
  | submit (prompt : String)
  | approve
  | reject

/-- One shell-triggered step, with the executor oracle used for that step. -/
def step (ex : String → ExecResult) (o : Op) (s : Session) : Session :=
  match o with
  | Op.submit p => (chat_submit ex p s).1
  | Op.approve => (approve_click ex s).1
  | Op.reject => (reject_click s).1

/-- Run a sequence of operations, each with its own executor oracle. -/
def runOps : List ((String → ExecResult) × Op) → Session → Session
  | [], s => s
  | (ex, o) :: rest, s => runOps rest (step ex o s)

/-- A session state reachable from the initial session by some sequence of
submit/approve/reject operations with arbitrary executor outcomes. -/
def Reachable (s : Session) : Prop := ∃ l, s = runOps l initSession

/-! ## Parser lemmas shared between claims -/

/-- The last URL segment is the head of the reversed segment list. -/
lemma urlParts_getLastD_eq_rev_headD (url : String) :
    (urlParts url).getLastD "" = (urlParts url).reverse.headD "" := by
  simp [List.getLastD_eq_getLast?, List.headD_eq_head?, List.head?_reverse]

/-- `parse_pr_url` succeeds exactly on inputs with at least four segments
whose last segment is `int(...)`-parseable. -/
lemma parse_ok_iff (url : String) :
    (∃ r, parse_pr_url url = Except.ok r) ↔
      4 ≤ (urlParts url).length ∧ (pythonInt ((urlParts url).getLastD "")).isSome := by
  rw [urlParts_getLastD_eq_rev_headD, ← List.length_reverse (urlParts url)]
  unfold parse_pr_url
  rcases hr : (urlParts url).reverse with _ | ⟨d, _ | ⟨c, _ | ⟨b, _ | ⟨a, t⟩⟩⟩⟩ <;>
    simp [hr] <;> rcases hpi : pythonInt d with _ | n <;> simp [hpi]

/-- `parse_pr_url` fails, with the message wrapping the original input,
exactly on inputs with fewer than four segments or a non-integer last
segment. -/
lemma parse_error_iff (url : String) :
    parse_pr_url url = Except.error ("Invalid GitHub PR URL format: " ++ url) ↔
      (urlParts url).length < 4 ∨ pythonInt ((urlParts url).getLastD "") = none := by
  rw [urlParts_getLastD_eq_rev_headD, ← List.length_reverse (urlParts url)]
  unfold parse_pr_url
  rcases hr : (urlParts url).reverse with _ | ⟨d, _ | ⟨c, _ | ⟨b, _ | ⟨a, t⟩⟩⟩⟩ <;>
    simp [hr] <;> rcases hpi : pythonInt d with _ | n <;> simp [hpi]

/-! ## Claim theorems: URL parser -/

/-- C7: for every URL whose trimmed `'/'`-split segment list ends in
`owner, name, "pull", numstr` with `int(numstr) = n`, `parse_pr_url`
returns the repository `owner ++ "/" ++ name` (the 4th- and 3rd-from-last
segments joined) and the number `n` parsed from the last segment. -/
theorem parse_valid_url_ok (url numstr owner name : String) (l : List String) (n : Int)
    (h : urlParts url = l ++ [owner, name, "pull", numstr])
    (hn : pythonInt numstr = some n) :
    parse_pr_url url = Except.ok (owner ++ "/" ++ name, n) := by
  unfold parse_pr_url
  rw [h]
  simp [List.reverse_append, hn]

/-- Witness for C7 at the spec's example shape, with trailing segment `"42"`
yielding number 42. -/
theorem parse_valid_url_ok_witness :
    parse_pr_url "https://github.com/acme/widgets/pull/42" =
      Except.ok ("acme/widgets", 42) :=
  parse_valid_url_ok _ "42" "acme" "widgets" ["https:", "", "github.com"] 42
    (by rfl) (by rfl)

/-- C8: `parse_pr_url` fails — with `ValueError` whose message contains the
original input (it is literally `"Invalid GitHub PR URL format: " ++ url`) —
exactly when the trimmed URL has fewer than four `'/'`-separated segments or
its last segment is not a valid base-10 integer; on every other input it
succeeds. -/
theorem parse_failure_characterization (url : String) :
    (parse_pr_url url = Except.error ("Invalid GitHub PR URL format: " ++ url) ↔
      (urlParts url).length < 4 ∨ pythonInt ((urlParts url).getLastD "") = none)
    ∧ ((∃ r, parse_pr_url url = Except.ok r) ↔
      ¬((urlParts url).length < 4 ∨ pythonInt ((urlParts url).getLastD "") = none)) := by
  refine ⟨parse_error_iff url, (parse_ok_iff url).trans ?_⟩
  rw [not_or, not_lt]
  exact and_congr Iff.rfl Option.isSome_iff_ne_none

/-- C10: the parser checks nothing beyond segment count and the integer form
of the last segment — no host check, no `"pull"` segment check, no
positivity check: a zero number, a negative number, a whitespace-padded last
segment, and a non-GitHub host all parse successfully, and any input whose
trimmed form has at least four segments with an `int(...)`-parseable last
segment succeeds. -/
theorem parse_no_semantic_checks :
    parse_pr_url "a/b/x/0" = Except.ok ("a/b", 0)
    ∧ parse_pr_url "a/b/x/-3" = Except.ok ("a/b", -3)
    ∧ parse_pr_url "a/b/x/ 7 " = Except.ok ("a/b", 7)
    ∧ parse_pr_url "http://evil.example/o/r/pull/5" = Except.ok ("o/r", 5)
    ∧ ∀ url, 4 ≤ (urlParts url).length → (pythonInt ((urlParts url).getLastD "")).isSome →
        ∃ r, parse_pr_url url = Except.ok r :=
  ⟨by rfl, by rfl, by rfl, by rfl, fun url h1 h2 => (parse_ok_iff url).mpr ⟨h1, h2⟩⟩

/-- Witness for C10's general success clause at a URL with a non-`pull`
third segment. -/
theorem parse_no_semantic_checks_witness :
    ∃ r, parse_pr_url "x/y/z/11" = Except.ok r :=
  parse_no_semantic_checks.2.2.2.2 "x/y/z/11" (by decide) (by decide)

/-- Witness for C8: a one-segment input fails with the message wrapping the
original input. -/
theorem parse_failure_characterization_witness :
    parse_pr_url "bad-url" = Except.error ("Invalid GitHub PR URL format: " ++ "bad-url") :=
  (parse_failure_characterization "bad-url").1.mpr (Or.inl (by decide))

/-! ## Claim theorems: GitHub gateway tools -/

/-- C9: both gateway tool functions are total string-valued functions: with
a falsy token they return the fixed missing-token error string for every
network oracle (so before and independently of any GitHub or HTTP call),
and with a token set every oracle outcome — success or raised exception —
is mapped to a plain descriptive string; both the `app.py` and the
`tools.py` variants are covered. -/
theorem gateway_tools_total (tok : Option String)
    (f : NetResult (String × String × String)) (p : NetResult Unit)
    (e t b d : String) :
    (tokenSet tok = false →
      get_pr_details_and_diff tok f =
          "Error: GITHUB_TOKEN has not been set. Please provide it in the sidebar."
        ∧ post_comment_to_pr tok p =
          "Error: GITHUB_TOKEN has not been set. Please provide it in the sidebar."
        ∧ ToolsPy.get_pr_details_and_diff tok f =
          "Error: GITHUB_TOKEN environment variable not set. Please provide it in the sidebar."
        ∧ ToolsPy.post_comment_to_pr tok p =
          "Error: GITHUB_TOKEN environment variable not set. Please provide it in the sidebar.")
    ∧ (tokenSet tok = true →
        get_pr_details_and_diff tok (NetResult.raised e) = "Error fetching PR details: " ++ e
        ∧ get_pr_details_and_diff tok (NetResult.ok (t, b, d)) =
            "Title: " ++ t ++ "\nBody: " ++ b ++ "\n\nCode Diff:\n" ++ d
        ∧ post_comment_to_pr tok (NetResult.raised e) = "Error posting comment: " ++ e
        ∧ post_comment_to_pr tok (NetResult.ok ()) = "Comment posted successfully."
        ∧ ToolsPy.get_pr_details_and_diff tok (NetResult.raised e) =
            "Error fetching PR details: " ++ e
        ∧ ToolsPy.get_pr_details_and_diff tok (NetResult.ok (t, b, d)) =
            "Title: " ++ t ++ "\nBody: " ++ b ++ "\n\nCode Diff:\n" ++ d
        ∧ ToolsPy.post_comment_to_pr tok (NetResult.raised e) =
            "Error posting comment: " ++ e
        ∧ ToolsPy.post_comment_to_pr tok (NetResult.ok ()) =
            "Comment posted successfully.") := by
  constructor <;> intro h <;>
    simp [get_pr_details_and_diff, post_comment_to_pr,
      ToolsPy.get_pr_details_and_diff, ToolsPy.post_comment_to_pr, h]

/-- Witness for C9: missing-token short circuit on a raising oracle, and
exception-to-string conversion with a token present. -/
theorem gateway_tools_total_witness :
    get_pr_details_and_diff none (NetResult.raised "boom") =
      "Error: GITHUB_TOKEN has not been set. Please provide it in the sidebar."
    ∧ get_pr_details_and_diff (some "tkn") (NetResult.raised "boom") =
      "Error fetching PR details: " ++ "boom" :=
  ⟨((gateway_tools_total none (NetResult.raised "boom") (NetResult.ok ())
      "boom" "" "" "").1 (by rfl)).1,
   ((gateway_tools_total (some "tkn") (NetResult.raised "boom") (NetResult.ok ())
      "boom" "" "" "").2 (by rfl)).1⟩

/-! ## Claim theorems: review-session state machine -/

/-- C1: from `"awaiting_approval"` with stored draft `X`, the approve button
performs exactly one executor invocation, whose posting task is the fixed
stem followed by the stored draft `X`; `approve_click` takes no comment
argument, so the posted body can only be the stored draft. -/
theorem approve_posts_stored_draft (ex : String → ExecResult) (s : Session)
    (X url repo : String) (num : Int)
    (hstage : s.stage = some "awaiting_approval")
    (hdraft : s.draft_comment = some X)
    (hurl : s.pr_url = some url)
    (hparse : parse_pr_url url = Except.ok (repo, num)) :
    (approve_click ex s).2 = [postingTaskStem repo num ++ X] := by
  rcases hex : ex (postingTaskStem repo num ++ X) with _ | ⟨st, outs⟩ | m <;>
    simp [approve_click, hstage, post_comment, hurl, hparse, hdraft, hex] <;>
    split <;> simp

/-- Witness for C1 on a concrete awaiting-approval session. -/
theorem approve_posts_stored_draft_witness :
    (approve_click (fun _ => ExecResult.run "COMPLETE" (some (some "ok")))
        ⟨some "awaiting_approval", [], some "https://github.com/acme/widgets/pull/7",
          some "Looks good."⟩).2 =
      [postingTaskStem "acme/widgets" 7 ++ "Looks good."] :=
  approve_posts_stored_draft _ _ "Looks good." "https://github.com/acme/widgets/pull/7"
    "acme/widgets" 7 rfl rfl rfl (by rfl)

/-- C6: from `"awaiting_approval"`, the reject button is a pure transition
to `"done"`: it appends the rejection and cancellation transcript entries
and performs no executor invocation (hence no gateway post call). -/
theorem reject_pure_transition (s : Session)
    (hstage : s.stage = some "awaiting_approval") :
    reject_click s =
      ({ s with
          messages := s.messages ++
            [mkUserMsg "No, reject.", mkBotMsg "👍 Understood. Operation cancelled."],
          stage := some "done" }, []) := by
  simp [reject_click, hstage]

/-- Witness for C6 on a concrete awaiting-approval session. -/
theorem reject_pure_transition_witness :
    reject_click
        ⟨some "awaiting_approval", [], some "https://github.com/a/b/pull/2", some "X"⟩ =
      (⟨some "done",
          [mkUserMsg "No, reject.", mkBotMsg "👍 Understood. Operation cancelled."],
          some "https://github.com/a/b/pull/2", some "X"⟩, []) :=
  reject_pure_transition
    ⟨some "awaiting_approval", [], some "https://github.com/a/b/pull/2", some "X"⟩ rfl

/-- The assistant transcript entry `post_comment` appends for each executor
outcome of the posting run, mirroring its branches: success message on a
COMPLETE run, failure message on a falsy or non-COMPLETE run, wrapped error
message on an exception. -/
def postOutcomeMsg : ExecResult → String
  | ExecResult.run st _ =>
      if st = "COMPLETE" then "✅ **Success!** Comment posted."
      else "❌ Failed to post the comment."
  | ExecResult.noRun => "❌ Failed to post the comment."
  | ExecResult.raised m => "An error occurred while posting: " ++ m

/-- C5 (amended): when the posting step completes, the stage becomes
`"done"` for every executor outcome — the code has no failed stage, a
COMPLETE run is recorded by a success transcript entry and every other
outcome only by a failure transcript entry — and the stored draft is never
cleared. -/
theorem post_outcome_characterization (ex : String → ExecResult) (s : Session)
    (X url repo : String) (num : Int)
    (hstage : s.stage = some "awaiting_approval")
    (hdraft : s.draft_comment = some X)
    (hurl : s.pr_url = some url)
    (hparse : parse_pr_url url = Except.ok (repo, num)) :
    (approve_click ex s).1.stage = some "done"
    ∧ (approve_click ex s).1.draft_comment = some X
    ∧ (approve_click ex s).1.messages =
        s.messages ++ [mkUserMsg "Yes, approve and post.",
          mkBotMsg (postOutcomeMsg (ex (postingTaskStem repo num ++ X)))] := by
  rcases hex : ex (postingTaskStem repo num ++ X) with _ | ⟨st, outs⟩ | m <;>
    simp [approve_click, hstage, post_comment, hurl, hparse, hdraft, hex,
      appendBot, postOutcomeMsg] <;> split <;> simp

/-- Witness for C5's amended characterization at a failing posting run. -/
theorem post_outcome_characterization_witness :
    (approve_click (fun _ => ExecResult.run "FAILED" none)
        ⟨some "awaiting_approval", [], some "https://github.com/a/b/pull/9",
          some "d2"⟩).1.stage = some "done"
    ∧ (approve_click (fun _ => ExecResult.run "FAILED" none)
        ⟨some "awaiting_approval", [], some "https://github.com/a/b/pull/9",
          some "d2"⟩).1.draft_comment = some "d2"
    ∧ (approve_click (fun _ => ExecResult.run "FAILED" none)
        ⟨some "awaiting_approval", [], some "https://github.com/a/b/pull/9",
          some "d2"⟩).1.messages =
        [] ++ [mkUserMsg "Yes, approve and post.",
          mkBotMsg (postOutcomeMsg
            ((fun _ => ExecResult.run "FAILED" none) (postingTaskStem "a/b" 9 ++ "d2")))] :=
  post_outcome_characterization (fun _ => ExecResult.run "FAILED" none)
    ⟨some "awaiting_approval", [], some "https://github.com/a/b/pull/9", some "d2"⟩
    "d2" "https://github.com/a/b/pull/9" "a/b" 9 rfl rfl rfl (by rfl)

/-- Counterexample to C5 as stated: a posting run with a falsy executor
result ends with stage `"done"` — the same terminal stage as a successful
post, not a distinct failed stage — with only a failure transcript entry. -/
theorem post_failure_stage_cx :
    (approve_click (fun _ => ExecResult.noRun)
        ⟨some "awaiting_approval", [], some "https://github.com/o/r/pull/1",
          some "d"⟩).1.stage = some "done"
    ∧ (approve_click (fun _ => ExecResult.noRun)
        ⟨some "awaiting_approval", [], some "https://github.com/o/r/pull/1",
          some "d"⟩).1.messages.getLast? =
        some (mkBotMsg "❌ Failed to post the comment.") := ⟨rfl, rfl⟩

/-- C4 (amended): a parse failure on submit from the initial session lands
back in the `"initial"` stage (the code has no distinct failed stage) with
the error message appended to the transcript and no executor — hence no
gateway — invocation; an exception from the analysis run likewise lands in
`"initial"` with the wrapped error message appended. -/
theorem submit_error_lands_in_initial (ex : String → ExecResult) (url : String) :
    (∀ e, parse_pr_url url = Except.error e → url ≠ "" →
      chat_submit ex url initSession =
        (⟨some "initial",
          [mkUserMsg ("Please review this PR: " ++ url),
            mkBotMsg ("An error occurred: " ++ e)],
          some url, none⟩, []))
    ∧ (∀ repo num m, parse_pr_url url = Except.ok (repo, num) →
        ex (analysisTask repo num) = ExecResult.raised m → url ≠ "" →
        (chat_submit ex url initSession).1.stage = some "initial"
        ∧ (chat_submit ex url initSession).1.messages.getLast? =
            some (mkBotMsg ("An error occurred: " ++ m))) := by
  constructor
  · intro e he hne
    simp [chat_submit, hne, run_analysis, he, failBack, initSession]
  · intro repo num m hok hex hne
    simp [chat_submit, hne, run_analysis, hok, hex, failBack, initSession]

/-- Witness for C4's amended theorem at a malformed URL. -/
theorem submit_error_lands_in_initial_witness :
    chat_submit (fun _ => ExecResult.noRun) "not a url" initSession =
      (⟨some "initial",
        [mkUserMsg "Please review this PR: not a url",
          mkBotMsg "An error occurred: Invalid GitHub PR URL format: not a url"],
        some "not a url", none⟩, []) :=
  (submit_error_lands_in_initial (fun _ => ExecResult.noRun) "not a url").1
    "Invalid GitHub PR URL format: not a url" (by rfl) (by decide)

/-- Counterexample to C4 as stated: after `submit("bad-url")` from the
initial session the stage is the string `"initial"` — the code's idle
marker, not a distinct failed stage (no branch of the program ever assigns
a `"failed"` stage) — although the no-gateway-call part does hold. -/
theorem submit_bad_url_stage_cx :
    (chat_submit (fun _ => ExecResult.noRun) "bad-url" initSession).1.stage = some "initial"
    ∧ (chat_submit (fun _ => ExecResult.noRun) "bad-url" initSession).1.stage ≠ some "failed"
    ∧ (chat_submit (fun _ => ExecResult.noRun) "bad-url" initSession).2 = [] :=
  ⟨rfl, by decide, rfl⟩

/-- Every run of `run_analysis` either stores a truthy draft and enters
`"awaiting_approval"`, or appends exactly one assistant message and falls
back to `"initial"`; in both cases the new user request is appended first
and `pr_url` is untouched. -/
lemma run_analysis_shape (ex : String → ExecResult) (p : String) (s : Session) :
    (∃ d, (run_analysis ex p s).1 =
      { s with
          messages := s.messages ++ [mkUserMsg ("Please review this PR: " ++ p)],
          draft_comment := some d, stage := some "awaiting_approval" })
    ∨ (∃ c, (run_analysis ex p s).1 =
      { s with
          messages := s.messages ++ [mkUserMsg ("Please review this PR: " ++ p), mkBotMsg c],
          stage := some "initial" }) := by
  unfold run_analysis
  rcases hpp : parse_pr_url p with e | ⟨repo, num⟩
  · exact Or.inr ⟨"An error occurred: " ++ e, by simp [hpp, failBack, List.append_assoc]⟩
  · rcases hex : ex (analysisTask repo num) with _ | ⟨st, outs⟩ | m
    · exact Or.inr ⟨"Agent run failed. State: N/A",
        by simp [hpp, hex, failBack, List.append_assoc]⟩
    · rcases outs with _ | dv
      · exact Or.inr ⟨"Agent run failed. State: " ++ st,
          by simp [hpp, hex, failBack, List.append_assoc]⟩
      · by_cases hst : st = "COMPLETE"
        · rcases dv with _ | d
          · exact Or.inr ⟨"Agent failed to produce a draft.",
              by simp [hpp, hex, hst, failBack, List.append_assoc]⟩
          · by_cases hd : d = ""
            · exact Or.inr ⟨"Agent failed to produce a draft.",
                by simp [hpp, hex, hst, hd, failBack, List.append_assoc]⟩
            · exact Or.inl ⟨d, by simp [hpp, hex, hst, hd]⟩
        · exact Or.inr ⟨"Agent run failed. State: " ++ st,
            by simp [hpp, hex, hst, failBack, List.append_assoc]⟩
    · exact Or.inr ⟨"An error occurred: " ++ m,
        by simp [hpp, hex, failBack, List.append_assoc]⟩

/-- C2 (amended): submitting a nonempty URL makes the resulting session
depend on the previous one only through `draft_comment` — the transcript is
cleared and `stage`/`pr_url` are overwritten, but the stored draft is not
cleared (it survives until a later successful analysis overwrites it); the
fresh transcript starts with the new user request. -/
theorem submit_resets_all_but_draft (ex : String → ExecResult) (p : String) (s : Session)
    (hp : p ≠ "") :
    chat_submit ex p s = chat_submit ex p { initSession with draft_comment := s.draft_comment }
    ∧ (chat_submit ex p s).1.messages.head? =
        some (mkUserMsg ("Please review this PR: " ++ p)) := by
  constructor
  · simp only [chat_submit, if_neg hp]
  · simp only [chat_submit, if_neg hp]
    rcases run_analysis_shape ex p
        { s with stage := some "analyzing", pr_url := some p, messages := [] } with
      ⟨d, h⟩ | ⟨c, h⟩ <;> simp [h]

/-- Witness for C2's amended theorem on a session holding a stale draft. -/
theorem submit_resets_all_but_draft_witness :
    chat_submit (fun _ => ExecResult.noRun) "u2"
        ⟨some "done", [mkUserMsg "old"], some "u1", some "stale"⟩ =
      chat_submit (fun _ => ExecResult.noRun) "u2"
        { initSession with draft_comment := some "stale" }
    ∧ (chat_submit (fun _ => ExecResult.noRun) "u2"
        ⟨some "done", [mkUserMsg "old"], some "u1", some "stale"⟩).1.messages.head? =
      some (mkUserMsg "Please review this PR: u2") :=
  submit_resets_all_but_draft (fun _ => ExecResult.noRun) "u2"
    ⟨some "done", [mkUserMsg "old"], some "u1", some "stale"⟩ (by decide)

/-- Counterexample to C2 as stated: submitting a new URL does not clear the
previously stored `draft_comment` — here the old draft survives a fresh
submit whose analysis fails. -/
theorem submit_keeps_old_draft_cx :
    (chat_submit (fun _ => ExecResult.noRun) "nope"
        ⟨some "done", [], some "u", some "OLD DRAFT"⟩).1.draft_comment =
      some "OLD DRAFT" := rfl

/-- The stage/draft invariant the specification asserts, in its code-true
direction: a session in one of the three draft-bearing stages holds a
draft. -/
def DraftInv (s : Session) : Prop :=
  s.stage = some "awaiting_approval" ∨ s.stage = some "posting" ∨ s.stage = some "done" →
    s.draft_comment.isSome

/-- Every outcome of `run_analysis` satisfies the invariant: failure
branches fall back to `"initial"` and the success branch stores a draft. -/
lemma run_analysis_draftInv (ex : String → ExecResult) (p : String) (s : Session) :
    DraftInv (run_analysis ex p s).1 := by
  rcases run_analysis_shape ex p s with ⟨d, h⟩ | ⟨c, h⟩ <;> rw [DraftInv, h] <;>
    rintro (h0 | h0 | h0) <;> simp_all

/-- `post_comment` always ends in `"done"` and never writes
`draft_comment`. -/
lemma post_comment_stage_draft (ex : String → ExecResult) (s : Session) :
    (post_comment ex s).1.stage = some "done"
    ∧ (post_comment ex s).1.draft_comment = s.draft_comment := by
  unfold post_comment
  rcases hu : s.pr_url with _ | url
  · simp [hu, appendBot]
  · rcases hpp : parse_pr_url url with e | ⟨repo, num⟩
    · simp [hu, hpp, appendBot]
    · rcases hd : s.draft_comment with _ | d
      · simp [hu, hpp, hd, appendBot]
      · rcases hex : ex (postingTaskStem repo num ++ d) with _ | ⟨st, outs⟩ | m <;>
          simp [hu, hpp, hd, hex, appendBot] <;> split <;> simp

/-- Each shell-triggered step preserves the draft invariant. -/
lemma step_preserves_draftInv (ex : String → ExecResult) (o : Op) (s : Session)
    (h : DraftInv s) : DraftInv (step ex o s) := by
  cases o with
  | submit p =>
    show DraftInv (chat_submit ex p s).1
    unfold chat_submit
    by_cases hp : p = ""
    · rw [if_pos hp]
      exact h
    · rw [if_neg hp]
      exact run_analysis_draftInv ex p
        { s with stage := some "analyzing", pr_url := some p, messages := [] }
  | approve =>
    show DraftInv (approve_click ex s).1
    unfold approve_click
    by_cases hs : s.stage = some "awaiting_approval"
    · rw [if_pos hs]
      intro _
      rw [(post_comment_stage_draft ex s).2]
      exact h (Or.inl hs)
    · rw [if_neg hs]
      exact h
  | reject =>
    show DraftInv (reject_click s).1
    unfold reject_click
    by_cases hs : s.stage = some "awaiting_approval"
    · rw [if_pos hs]
      intro _
      exact h (Or.inl hs)
    · rw [if_neg hs]
      exact h

/-- The draft invariant holds along every run. -/
lemma runOps_draftInv (l : List ((String → ExecResult) × Op)) (s : Session)
    (h : DraftInv s) : DraftInv (runOps l s) := by
  induction l generalizing s with
  | nil => exact h
  | cons hd tl ih => exact ih (step hd.1 hd.2 s) (step_preserves_draftInv hd.1 hd.2 s h)

/-- C3 (amended): in every reachable session, being in one of the stages
`"awaiting_approval"`, `"posting"`, `"done"` implies a draft is stored; the
converse direction of the specification's `iff` fails, because the draft is
never cleared on session reset. -/
theorem reachable_stage_draft_invariant (s : Session) (h : Reachable s)
    (hst : s.stage = some "awaiting_approval" ∨ s.stage = some "posting"
      ∨ s.stage = some "done") :
    s.draft_comment.isSome := by
  rcases h with ⟨l, rfl⟩
  refine runOps_draftInv l initSession ?_ hst
  rintro (h0 | h0 | h0) <;> simp [initSession] at h0

/-- Witness for C3's amended invariant at a concrete reachable
awaiting-approval session. -/
theorem reachable_stage_draft_invariant_witness :
    (runOps [(fun _ => ExecResult.run "COMPLETE" (some (some "LGTM")),
        Op.submit "https://github.com/a/b/pull/3")] initSession).draft_comment.isSome :=
  reachable_stage_draft_invariant _
    ⟨[(fun _ => ExecResult.run "COMPLETE" (some (some "LGTM")),
        Op.submit "https://github.com/a/b/pull/3")], rfl⟩
    (Or.inl (by rfl))

/-- Counterexample to C3 as stated: a reachable session (analysis succeeded,
then a second submit failed to parse) holds a draft while its stage is
`"initial"` — outside the three stages of the claimed `iff`. -/
theorem draft_without_active_stage_cx :
    (runOps [(fun _ => ExecResult.run "COMPLETE" (some (some "Nice work.")),
        Op.submit "https://github.com/acme/widgets/pull/7"),
      (fun _ => ExecResult.noRun, Op.submit "oops")] initSession).draft_comment =
      some "Nice work."
    ∧ (runOps [(fun _ => ExecResult.run "COMPLETE" (some (some "Nice work.")),
        Op.submit "https://github.com/acme/widgets/pull/7"),
      (fun _ => ExecResult.noRun, Op.submit "oops")] initSession).stage = some "initial"
    ∧ (some "initial" : Option String) ∉
        [some "awaiting_approval", some "posting", some "done"] :=
  ⟨rfl, rfl, by decide⟩

end PRGuardian
